import Mathlib

/-!
Verification of the pochi notebook diff-view engine
(`NotebookDiffView` in the vscode package, together with the two
read-only virtual content providers `DiffOriginNotebookProvider` and
`DiffModifiedNotebookProvider`).

The TypeScript source is shallowly embedded: JavaScript strings become
Lean `String`s, the per-session mutable fields of `NotebookDiffView`
become a `SessionState` record, and each operation becomes a pure state
transition returning the new state together with the externally visible
effects the source performs.  External collaborators (the structural
content converter `vscode.executeDataToNotebook`, the diff/patch
library, the VS Code window/tab host) are modelled at their interface,
as the spec directs: the converter round-trip is the identity on the
serialized byte content, and the line-diff library is modelled by the
added/removed counts of a minimal line edit script.
-/

namespace Pochi

/-! ## JavaScript string primitives used by the source -/

/-- JS `content.split("\n")`: split on every newline, keeping empty
segments, so `"" -> [""]` and `"a\nb\n" -> ["a", "b", ""]`. -/
def splitLinesAux : List Char → List Char → List String
  | [], acc => [String.mk acc.reverse]
  | '\n' :: rest, acc => String.mk acc.reverse :: splitLinesAux rest []
  | c :: rest, acc => splitLinesAux rest (c :: acc)

/-- JS `content.split("\n")` on a `String`. -/
def splitLines (s : String) : List String :=
  splitLinesAux s.toList []

/-- JS `content.startsWith("\uFEFF") ? content.slice(1) : content`:
strip a single leading byte-order-mark code unit. -/
def stripLeadingBOM (s : String) : String :=
  match s.toList with
  | '\uFEFF' :: rest => String.mk rest
  | _ => s

/-- Number of byte-order-mark characters contained in a string. -/
def countBOM (s : String) : Nat :=
  s.toList.count '\uFEFF'

/-- JS `s.includes("\r\n")` on the character list. -/
def containsCRLF : List Char → Bool
  | [] => false
  | '\r' :: '\n' :: _ => true
  | _ :: rest => containsCRLF rest

/-- JS `s.replace(/\r\n|\n/g, eol)`: every CRLF or lone LF becomes
`eol`; a lone CR is left alone (the regex does not match it). -/
def replaceLineEndingsAux (eol : List Char) : List Char → List Char
  | [] => []
  | '\r' :: '\n' :: rest => eol ++ replaceLineEndingsAux eol rest
  | '\n' :: rest => eol ++ replaceLineEndingsAux eol rest
  | c :: rest => c :: replaceLineEndingsAux eol rest

/-- JS `s.replace(/\r\n|\n/g, eol)` on `String`s. -/
def replaceLineEndings (s eol : String) : String :=
  String.mk (replaceLineEndingsAux eol.toList s.toList)

/-- JS `s.trimEnd()`: remove trailing whitespace. -/
def jsTrimEnd (s : String) : String :=
  String.mk (s.toList.reverse.dropWhile Char.isWhitespace).reverse

/-! ## The line-diff library (`diff.diffLines`), modelled by counts

`diff.diffLines` tokenizes both sides into lines (each token keeps its
trailing newline; a trailing empty token is dropped) and computes a
minimal line edit script.  `getEditSummary` only consumes the total
added and removed token counts of that script, which for a minimal
script are `|modified tokens| - lcs` and `|original tokens| - lcs`
where `lcs` is the length of the longest common subsequence of the two
token lists. -/

/-- Tokenize a string into lines, each keeping its trailing `"\n"`
(and hence also a preceding `"\r"`); no empty trailing token:
`"a\nb\n" -> ["a\n", "b\n"]`, `"" -> []`. -/
def lineTokensAux : List Char → List Char → List String
  | [], [] => []
  | [], acc => [String.mk acc.reverse]
  | '\n' :: rest, acc => String.mk ('\n' :: acc).reverse :: lineTokensAux rest []
  | c :: rest, acc => lineTokensAux rest (c :: acc)

/-- Line tokens of a string, as `diff.diffLines` tokenizes. -/
def lineTokens (s : String) : List String :=
  lineTokensAux s.toList []

/-- Longest-common-subsequence length, fuelled so that it is
structurally recursive; `fuel = |xs| + |ys|` always suffices. -/
def lcsLenFuel : Nat → List String → List String → Nat
  | 0, _, _ => 0
  | _ + 1, [], _ => 0
  | _ + 1, _, [] => 0
  | fuel + 1, a :: as, b :: bs =>
    if a = b then lcsLenFuel fuel as bs + 1
    else max (lcsLenFuel fuel (a :: as) bs) (lcsLenFuel fuel as (b :: bs))

/-- Longest-common-subsequence length of two token lists. -/
def lcsLen (xs ys : List String) : Nat :=
  lcsLenFuel (xs.length + ys.length) xs ys

/-- Added/removed line counts reported back to the model. -/
structure EditSummary where
  added : Nat
  removed : Nat
deriving DecidableEq, Repr

/-- `NotebookDiffView.getEditSummary`: sum of the `added` counts and of
the `removed` counts over the parts of `diff.diffLines(original,
modified)`; for the minimal edit script these are determined by the
token counts and the longest common subsequence. -/
def getEditSummary (original modified : String) : EditSummary :=
  let a := lineTokens original
  let b := lineTokens modified
  let l := lcsLen a b
  { added := b.length - l, removed := a.length - l }

/-! ## Session state (`NotebookDiffView` instance fields) -/

/-- The mutable state of one `NotebookDiffView` session, together with
the live notebook document the session's diff editor shows.
`documentContent` is the serialized content of
`activeDiffEditor.notebook`; `notebookType` is its (constant)
`notebookType` identifier; `isDirty` its dirty flag. -/
structure SessionState where
  isFinalized : Bool
  isReverted : Bool
  streamedLines : List String
  documentContent : String
  isDirty : Bool
  notebookType : String
  originalContent : String
  fsPath : String
  isFileOpenBeforeDiffPreview : Bool
deriving DecidableEq, Repr

/-- Result of `update`: the new session state, and the content handed
to the structural converter (`vscode.executeDataToNotebook`) and
applied to the document when `isFinal` — `none` when no final apply
happened. -/
structure UpdateResult where
  state : SessionState
  appliedFinalContent : Option String
deriving DecidableEq, Repr

/-- `NotebookDiffView.update(content, isFinal)`.  Returns immediately
when the session is finalized or reverted.  Otherwise sets
`isFinalized` when `isFinal`, strips one leading BOM from the incoming
content, splits into lines, drops the last (possibly partial) line
when not final, and stores the retained lines as `streamedLines`.
When final, the accumulated (BOM-stripped) content is decoded by the
external converter and replaces the whole document in one edit; the
converter round-trip is modelled as the identity on the content, and
the reveal/scroll animation, abort-listener registration and
post-apply delay are host-UI effects with no bearing on the state
modelled here. -/
def update (st : SessionState) (content : String) (isFinal : Bool) : UpdateResult :=
  if st.isFinalized || st.isReverted then ⟨st, none⟩
  else
    let st1 := if isFinal then { st with isFinalized := true } else st
    let accumulatedContent := stripLeadingBOM content
    let accumulatedLines := splitLines accumulatedContent
    let accumulatedLines :=
      if !isFinal then accumulatedLines.dropLast else accumulatedLines
    let st2 := { st1 with streamedLines := accumulatedLines }
    if isFinal then
      ⟨{ st2 with documentContent := accumulatedContent, isDirty := true },
        some accumulatedContent⟩
    else
      ⟨st2, none⟩

/-! ## revertAndClose -/

/-- The externally visible teardown effects `revertAndClose` performs,
in order. -/
inductive TeardownEffect where
  | applyRevertEdit (content : String)
  | saveAll
  | closeNonDirtyDiffViews
  | reopenFile (fsPath : String)
deriving DecidableEq, Repr

/-- `NotebookDiffView.revertAndClose`.  A second call after `isReverted`
is set returns at once with no effect.  Otherwise it marks the session
reverted, and (via `discardChangesWithWorkspaceEdit`) when the document
is dirty decodes the original content through the converter, replaces
the document with it and saves all; it always closes the other
non-dirty diff views, and reopens the file in a plain editor when it
was open before the diff preview. -/
def revertAndClose (st : SessionState) : SessionState × List TeardownEffect :=
  if st.isReverted then (st, [])
  else
    let st1 := { st with isReverted := true }
    let discardEffects :=
      if st1.isDirty then
        [TeardownEffect.applyRevertEdit st1.originalContent, TeardownEffect.saveAll]
      else []
    let st2 :=
      if st1.isDirty then
        { st1 with documentContent := st1.originalContent, isDirty := false }
      else st1
    let reopenEffects :=
      if st2.isFileOpenBeforeDiffPreview then
        [TeardownEffect.reopenFile st2.fsPath]
      else []
    (st2, discardEffects ++ [TeardownEffect.closeNonDirtyDiffViews] ++ reopenEffects)

/-! ## saveChanges -/

/-- The textual patch produced by the external `createPrettyPatch`
helper, modelled by the arguments the source hands it. -/
structure PrettyPatch where
  filename : String
  oldStr : String
  newStr : String
deriving DecidableEq, Repr

/-- External `createPrettyPatch(filename, oldStr, newStr)`. -/
def createPrettyPatch (filename oldStr newStr : String) : PrettyPatch :=
  ⟨filename, oldStr, newStr⟩

/-- The `.replace(/\r\n|\n/g, newContentEOL).trimEnd() + newContentEOL`
normalization `saveChanges` applies to all three content variants. -/
def normalizeContent (s eol : String) : String :=
  jsTrimEnd (replaceLineEndings s eol) ++ eol

/-- What `saveChanges` returns to the tool handler (the diagnostics
report, an external concern, is omitted). -/
structure SaveResult where
  userEdits : Option PrettyPatch
  autoFormattingEdits : Option PrettyPatch
  editSummary : EditSummary
deriving DecidableEq, Repr

/-- `NotebookDiffView.saveChanges(relPath, newContent)`.  As in the
source: `preSaveContent` and `postSaveContent` are both read from
`updatedDocument.notebookType`; the document is saved when dirty
(clearing `isDirty`; the modelled save persists `documentContent`
unchanged); the edit summary diffs `originalContent || ""` against
`postSaveContent`; the three variants are normalized to the EOL style
of `newContent` and the two optional patches are produced from the
normalized comparisons.  Reopening the file, the refocus flag, closing
other non-dirty diff views and the diagnostics wait are host effects
that do not touch the state modelled here. -/
def saveChanges (st : SessionState) (relPath newContent : String) :
    SaveResult × SessionState :=
  let preSaveContent := st.notebookType
  let st1 := if st.isDirty then { st with isDirty := false } else st
  let postSaveContent := st1.notebookType
  let editSummary := getEditSummary st.originalContent postSaveContent
  let newContentEOL := if containsCRLF newContent.toList then "\r\n" else "\n"
  let normalizedPreSaveContent := normalizeContent preSaveContent newContentEOL
  let normalizedPostSaveContent := normalizeContent postSaveContent newContentEOL
  let normalizedNewContent := normalizeContent newContent newContentEOL
  let userEdits :=
    if normalizedPreSaveContent ≠ normalizedNewContent then
      some (createPrettyPatch relPath normalizedNewContent normalizedPreSaveContent)
    else none
  let autoFormattingEdits :=
    if normalizedPreSaveContent ≠ normalizedPostSaveContent then
      some (createPrettyPatch relPath normalizedPreSaveContent normalizedPostSaveContent)
    else none
  (⟨userEdits, autoFormattingEdits, editSummary⟩, st1)

/-! ## Virtual content providers -/

/-- `vscode.FileType`, restricted to what the providers produce. -/
inductive FileType where
  | File
  | Directory
deriving DecidableEq, Repr

/-- `vscode.FileStat`: timestamps are `Date.now()` at call time, passed
in as `now`. -/
structure FileStat where
  type : FileType
  ctime : Nat
  mtime : Nat
  size : Nat
deriving DecidableEq, Repr

/-- The two `vscode.FileSystemError` kinds the providers raise. -/
inductive FileSystemError where
  | FileNotFound
  | NoPermissions
deriving DecidableEq, Repr

/-- The pieces of a `vscode.Uri` the providers consult. -/
structure VirtualUri where
  path : String
  query : String
  fragment : String
deriving DecidableEq, Repr

/-- First-match association-list lookup, the semantics of
`Map.get` over keys inserted with `Map.set` (newest first). -/
def lookupBytes : List (String × List Nat) → String → Option (List Nat)
  | [], _ => none
  | (k, v) :: rest, key => if k = key then some v else lookupBytes rest key

namespace DiffModifiedNotebookProvider

/-- The provider's custom scheme. -/
def scheme : String := "pochi-nb-modified"

/-- `setForFile(id, path, data, version)`: store `data` under the key
`id:version` (the change notification it fires is a host effect). -/
def setForFile (content : List (String × List Nat)) (id : String)
    (data : List Nat) (version : Nat) : List (String × List Nat) :=
  (s!"{id}:{version}", data) :: content

/-- `stat(uri)`: size of the stored bytes under the `uri.query` key, or
0 when absent; always a `File` with current timestamps — never fails. -/
def stat (content : List (String × List Nat)) (uri : VirtualUri)
    (now : Nat) : FileStat :=
  let size := match lookupBytes content uri.query with
    | some data => data.length
    | none => 0
  ⟨FileType.File, now, now, size⟩

/-- `readFile(uri)`: the stored bytes under the `uri.query` key, or
`FileNotFound` when absent. -/
def readFile (content : List (String × List Nat)) (uri : VirtualUri) :
    Except FileSystemError (List Nat) :=
  match lookupBytes content uri.query with
  | some data => .ok data
  | none => .error .FileNotFound

/-- `createDirectory()`: always `NoPermissions`. -/
def createDirectory : Except FileSystemError Unit := .error .NoPermissions

/-- `writeFile()`: always `NoPermissions`. -/
def writeFile : Except FileSystemError Unit := .error .NoPermissions

/-- `delete()`: always `NoPermissions`. -/
def delete : Except FileSystemError Unit := .error .NoPermissions

/-- `rename()`: always `NoPermissions`. -/
def rename : Except FileSystemError Unit := .error .NoPermissions

end DiffModifiedNotebookProvider

/-- Sextet value of one base64 alphabet character (`A-Z a-z 0-9 + /`);
other characters carry no payload. -/
def base64Val (c : Char) : Option Nat :=
  if 'A' ≤ c ∧ c ≤ 'Z' then some (c.toNat - 65)
  else if 'a' ≤ c ∧ c ≤ 'z' then some (c.toNat - 97 + 26)
  else if '0' ≤ c ∧ c ≤ '9' then some (c.toNat - 48 + 52)
  else if c = '+' then some 62
  else if c = '/' then some 63
  else none

/-- Reassemble bytes from a sextet stream: 4 sextets give 3 bytes, a
2-sextet remainder 1 byte, a 3-sextet remainder 2 bytes. -/
def base64Bytes : List Nat → List Nat
  | a :: b :: c :: d :: rest =>
    (a * 4 + b / 16) :: ((b % 16) * 16 + c / 4) :: ((c % 4) * 64 + d)
      :: base64Bytes rest
  | [a, b] => [a * 4 + b / 16]
  | [a, b, c] => [a * 4 + b / 16, (b % 16) * 16 + c / 4]
  | _ => []

/-- `Buffer.from(s, "base64")`: decode, skipping padding and any
non-alphabet characters; total — never fails. -/
def base64Decode (s : String) : List Nat :=
  base64Bytes (s.toList.filterMap base64Val)

namespace DiffOriginNotebookProvider

/-- The provider's custom scheme. -/
def scheme : String := "pochi-nb-origin"

/-- `stat(uri)`: byte length of the base64-decoded query with current
timestamps; always a `File` — never fails. -/
def stat (uri : VirtualUri) (now : Nat) : FileStat :=
  ⟨FileType.File, now, now, (base64Decode uri.query).length⟩

/-- `readFile(uri)`: the original notebook bytes carried in the
identifier itself, base64-decoded from `uri.query`; never fails, so the
key is never absent. -/
def readFile (uri : VirtualUri) : Except FileSystemError (List Nat) :=
  .ok (base64Decode uri.query)

/-- `createDirectory()`: always `NoPermissions`. -/
def createDirectory : Except FileSystemError Unit := .error .NoPermissions

/-- `writeFile()`: always `NoPermissions`. -/
def writeFile : Except FileSystemError Unit := .error .NoPermissions

/-- `delete()`: always `NoPermissions`. -/
def delete : Except FileSystemError Unit := .error .NoPermissions

/-- `rename()`: always `NoPermissions`. -/
def rename : Except FileSystemError Unit := .error .NoPermissions

end DiffOriginNotebookProvider

/-! ## Tab-lifecycle reconciler (`handleTabChanges`) -/

/-- The tab inputs the engine distinguishes.  `textDiff` is
`vscode.TabInputTextDiff` (with the original side's scheme and path);
`notebookDiff` is `vscode.TabInputNotebookDiff` — the kind of tab the
engine's own `vscode.diff` call on a notebook produces, whose original
side is `pochi-nb-origin:<session id>` and whose modified side is the
real file (this is exactly what `openDiffEditor` and
`closeAllNonDirtyDiffViews` match on). -/
inductive TabInput where
  | text (fsPath : String)
  | textDiff (originalScheme originalPath : String)
  | notebookDiff (originalScheme originalPath modifiedFsPath : String)
  | other
deriving DecidableEq, Repr

/-- An open editor tab. -/
structure Tab where
  input : TabInput
deriving DecidableEq, Repr

/-- One `DiffViewMap` entry: the session id and the fsPath of the
session's target file (`diffView.fileUri.fsPath`). -/
structure DiffViewEntry where
  id : String
  fsPath : String
deriving DecidableEq, Repr

/-- The comparison view tab a session opens (`runVSCodeDiff` issues
`vscode.diff` on `pochi-nb-origin:<id>` versus the notebook file, which
the host presents as a notebook diff tab). -/
def sessionDiffViewTab (id fsPath : String) : Tab :=
  ⟨TabInput.notebookDiff DiffOriginNotebookProvider.scheme id fsPath⟩

/-- Whether a session's comparison view is visible among the open
tabs. -/
def comparisonViewVisible (tabs : List Tab) (id : String) : Bool :=
  tabs.any fun t =>
    match t.input with
    | TabInput.notebookDiff sch p _ =>
      sch = DiffOriginNotebookProvider.scheme && p = id
    | _ => false

/-- The visible-id scan in `handleTabChanges`: ids of open
`TabInputTextDiff` tabs whose original scheme is
`DiffOriginNotebookProvider.scheme` (the id is stored in the path). -/
def visibleDiffViewIds (tabs : List Tab) : List String :=
  tabs.filterMap fun t =>
    match t.input with
    | TabInput.textDiff sch p =>
      if sch = DiffOriginNotebookProvider.scheme then some p else none
    | _ => none

/-- `handleTabChanges(e)` restricted to the registry it computes:
returns unchanged when no tab closed; otherwise removes every
registered diff view whose id is not among `visibleDiffViewIds`,
together with every diff view sharing a file path with one of those
(each removed view is disposed).  Hook uninstall and refocus are global
host effects outside this state. -/
def handleTabChanges (closedCount : Nat) (tabs : List Tab)
    (diffViewMap : List DiffViewEntry) : List DiffViewEntry :=
  if closedCount = 0 then diffViewMap
  else
    let visible := visibleDiffViewIds tabs
    let notVisible := diffViewMap.filter fun e => !(visible.contains e.id)
    let idsToRemoveFirst := notVisible.map DiffViewEntry.id
    let filePathsToClose := notVisible.map DiffViewEntry.fsPath
    let idsToRemove := (diffViewMap.filter fun e =>
      idsToRemoveFirst.contains e.id || filePathsToClose.contains e.fsPath
      ).map DiffViewEntry.id
    diffViewMap.filter fun e => !(idsToRemove.contains e.id)

/-! ## Session registry and getOrCreate -/

/-- First-match association-list lookup for the registry
(`DiffViewMap.get`). -/
def lookupSession : List (String × Nat) → String → Option Nat
  | [], _ => none
  | (k, v) :: rest, key => if k = key then some v else lookupSession rest key

/-- The process-wide registry state: `sessions` is `DiffViewMap` (each
session instance identified by a distinct number), `nextSession` the
identity the next construction will use, `openedViews` how many
comparison views `createDiffView` has opened. -/
structure Registry where
  sessions : List (String × Nat)
  nextSession : Nat
  openedViews : Nat
deriving DecidableEq, Repr

/-- The body of `NotebookDiffView.getOrCreate(id, relpath, cwd)`.  The
source wraps this body in `runExclusive.build` over one shared group
ref, so concurrent invocations run strictly one after the other and
each body executes atomically with respect to the registry; the body is
therefore modelled as one atomic state transition.  It returns the
registered session when present, else constructs a new one (opening one
comparison view) and registers it. -/
def getOrCreate (id : String) (r : Registry) : Nat × Registry :=
  match lookupSession r.sessions id with
  | some s => (s, r)
  | none =>
    (r.nextSession,
      ⟨(id, r.nextSession) :: r.sessions, r.nextSession + 1, r.openedViews + 1⟩)

/-! ## Concrete states used by the theorems -/

/-- A finalized, clean session whose live document holds `"a\n"`, equal
to the original snapshot; the notebook's type identifier is the usual
`"jupyter-notebook"`. -/
def equalContentsState : SessionState :=
  ⟨true, false, ["a", ""], "a\n", false, "jupyter-notebook", "a\n", "/nb.ipynb", false⟩

/-- A fresh session opened on an existing file whose snapshot is
`"a\nb\n"`. -/
def abSessionState : SessionState :=
  ⟨false, false, [], "a\nb\n", false, "jupyter-notebook", "a\nb\n", "/f.ipynb", false⟩

/-- A fresh session opened on an empty file. -/
def freshEmptyState : SessionState :=
  ⟨false, false, [], "", false, "jupyter-notebook", "", "/nb.ipynb", false⟩

/-- A session that has already been finalized. -/
def finalizedState : SessionState :=
  ⟨true, false, ["done"], "done\n", false, "jupyter-notebook", "", "/nb.ipynb", false⟩

/-- A streaming session that is neither finalized nor reverted. -/
def streamingState : SessionState :=
  ⟨false, false, [], "", false, "jupyter-notebook", "", "/nb.ipynb", false⟩

/-- An empty registry. -/
def emptyRegistry : Registry := ⟨[], 0, 0⟩

/-! ## Supporting lemmas -/

/-- `saveChanges` can never report auto-formatting edits: it compares
`updatedDocument.notebookType` with itself, so the guard
`normalizedPreSaveContent !== normalizedPostSaveContent` is never
taken. -/
theorem saveChanges_autoFormattingEdits_always_none
    (st : SessionState) (relPath newContent : String) :
    (saveChanges st relPath newContent).1.autoFormattingEdits = none := by
  by_cases h : st.isDirty = true <;> simp [saveChanges, h]

/-! ## Claim theorems -/

/-- C1 (refuting evaluation): at a state where the pre-save live
document content A, the caller baseline B and the post-save content C
are all `"a\n"`, `saveChanges` still reports `userEdits` — because the
source reads `updatedDocument.notebookType` (here
`"jupyter-notebook"`) instead of the document content as
`preSaveContent`/`postSaveContent`.  The claim says both patches are
absent when A = B = C. -/
theorem saveChanges_reports_userEdits_although_contents_all_equal :
    equalContentsState.documentContent = "a\n"
    ∧ (saveChanges equalContentsState "nb.ipynb" "a\n").2.documentContent = "a\n"
    ∧ (saveChanges equalContentsState "nb.ipynb" "a\n").1.userEdits
      = some (createPrettyPatch "nb.ipynb" "a\n" "jupyter-notebook\n") := by
  decide

/-- C2 (refuting evaluation): for the session with original snapshot
`"a\nb\n"`, after `update("a\nc\n", true)` the live post-save content
is `"a\nc\n"`, so the claimed summary would be one added and one
removed, and indeed `getEditSummary "a\nb\n" "a\nc\n" = ⟨1, 1⟩`; but
`saveChanges` diffs the original against
`updatedDocument.notebookType`, reporting `⟨1, 2⟩`. -/
theorem saveChanges_editSummary_diffs_notebookType_not_content :
    (saveChanges (update abSessionState "a\nc\n" true).state
        "f.ipynb" "a\nc\n").2.documentContent = "a\nc\n"
    ∧ getEditSummary "a\nb\n" "a\nc\n" = ⟨1, 1⟩
    ∧ (saveChanges (update abSessionState "a\nc\n" true).state
        "f.ipynb" "a\nc\n").1.editSummary = ⟨1, 2⟩ := by
  decide

/-- C3 (refuting evaluation): session `"X"` is registered and its
comparison view — the notebook diff tab `openDiffEditor` opens — is
still among the open tabs, yet on a close event `handleTabChanges`
disposes and removes `"X"`, because its visibility scan only looks for
`TabInputTextDiff` tabs while the engine's views are notebook diff
tabs.  The claim says a session whose comparison view is still visible
stays registered. -/
theorem handleTabChanges_removes_visible_session :
    comparisonViewVisible [sessionDiffViewTab "X" "/f.ipynb"] "X" = true
    ∧ handleTabChanges 1 [sessionDiffViewTab "X" "/f.ipynb"]
        [⟨"X", "/f.ipynb"⟩] = [] := by
  decide

/-- C4: once `isFinalized` or `isReverted` is set, `update` returns
without changing the streamed-lines state, the finalized flag, or the
document content — the whole session state and the applied content are
exactly those of a no-op. -/
theorem update_noop_after_finalized_or_reverted
    (st : SessionState) (content : String) (isFinal : Bool)
    (h : st.isFinalized = true ∨ st.isReverted = true) :
    update st content isFinal = ⟨st, none⟩ := by
  rcases h with h | h <;> simp [update, h]

/-- Witness for C4 at a concrete finalized session. -/
theorem update_noop_after_finalized_or_reverted_witness :
    finalizedState.isFinalized = true
    ∧ update finalizedState "late content" true = ⟨finalizedState, none⟩ :=
  ⟨by decide,
    update_noop_after_finalized_or_reverted finalizedState "late content" true
      (Or.inl (by decide))⟩

/-- C5: `revertAndClose` is idempotent — after one call has completed,
a second call returns the same end state and performs no teardown
effect at all (no revert edit, save-all, view closing, or file
reopening). -/
theorem revertAndClose_idempotent (st : SessionState) :
    revertAndClose (revertAndClose st).1 = ((revertAndClose st).1, []) := by
  by_cases h : st.isReverted = true
  · simp [revertAndClose, h]
  · by_cases hd : st.isDirty = true <;> simp [revertAndClose, h, hd]

/-- C6 (refuting evaluation): streaming `"\uFEFFa\nb\n"` as the final
update strips the BOM, and `saveChanges` — despite the comment in
`update` saying the final BOM is handled there — contains no BOM
reinstatement, so the saved document content carries zero
byte-order-marks, not exactly one as the claim states. -/
theorem update_then_save_yields_zero_BOM :
    countBOM "\uFEFFa\nb\n" = 1
    ∧ (update freshEmptyState "\uFEFFa\nb\n" true).appliedFinalContent
      = some "a\nb\n"
    ∧ countBOM ((saveChanges (update freshEmptyState "\uFEFFa\nb\n" true).state
        "nb.ipynb" "\uFEFFa\nb\n").2.documentContent) = 0 := by
  decide

/-- C7: an effective `update` call (session neither finalized nor
reverted) splits the (BOM-stripped) content into lines, drops the last
— possibly partial — line exactly when the chunk is not final, and
afterwards `streamedLines` equals exactly those retained accumulated
lines. -/
theorem update_streamedLines_eq_retained_lines
    (st : SessionState) (content : String) (isFinal : Bool)
    (h1 : st.isFinalized = false) (h2 : st.isReverted = false) :
    (update st content isFinal).state.streamedLines =
      (if isFinal then splitLines (stripLeadingBOM content)
       else (splitLines (stripLeadingBOM content)).dropLast) := by
  cases isFinal <;> simp [update, h1, h2]

/-- Witness for C7: a non-final chunk `"x\nyz"` retains only the
complete line `"x"`. -/
theorem update_streamedLines_eq_retained_lines_witness :
    (streamingState.isFinalized = false ∧ streamingState.isReverted = false)
    ∧ (update streamingState "x\nyz" false).state.streamedLines = ["x"] :=
  ⟨⟨by decide, by decide⟩, by
    rw [update_streamedLines_eq_retained_lines streamingState "x\nyz" false
      (by decide) (by decide)]
    decide⟩

/-- C8: both providers are strictly read-only — the modified provider's
`readFile` returns the stored bytes under the key or fails with
`FileNotFound` when the key is absent, the origin provider's `readFile`
returns the bytes stored in the identifier itself (never absent), and
every mutating operation of either provider fails with
`NoPermissions`. -/
theorem providers_read_only_contract
    (content : List (String × List Nat)) (u v : VirtualUri) :
    ((∃ d, lookupBytes content u.query = some d
        ∧ DiffModifiedNotebookProvider.readFile content u = .ok d)
      ∨ (lookupBytes content u.query = none
        ∧ DiffModifiedNotebookProvider.readFile content u
          = .error .FileNotFound))
    ∧ DiffOriginNotebookProvider.readFile v = .ok (base64Decode v.query)
    ∧ DiffModifiedNotebookProvider.createDirectory = .error .NoPermissions
    ∧ DiffModifiedNotebookProvider.writeFile = .error .NoPermissions
    ∧ DiffModifiedNotebookProvider.delete = .error .NoPermissions
    ∧ DiffModifiedNotebookProvider.rename = .error .NoPermissions
    ∧ DiffOriginNotebookProvider.createDirectory = .error .NoPermissions
    ∧ DiffOriginNotebookProvider.writeFile = .error .NoPermissions
    ∧ DiffOriginNotebookProvider.delete = .error .NoPermissions
    ∧ DiffOriginNotebookProvider.rename = .error .NoPermissions := by
  refine ⟨?_, rfl, rfl, rfl, rfl, rfl, rfl, rfl, rfl, rfl⟩
  cases h : lookupBytes content u.query with
  | some d => exact Or.inl ⟨d, rfl, by simp [DiffModifiedNotebookProvider.readFile, h]⟩
  | none => exact Or.inr ⟨rfl, by simp [DiffModifiedNotebookProvider.readFile, h]⟩

/-- C9: `getOrCreate` runs inside one shared run-exclusive group, so
two concurrent calls for a brand-new id execute back to back as atomic
registry transitions; the second call then finds and returns the very
session the first registered, the registry is unchanged by it, and
exactly one comparison view was opened. -/
theorem getOrCreate_concurrent_same_session
    (r : Registry) (id : String)
    (h : lookupSession r.sessions id = none) :
    (getOrCreate id (getOrCreate id r).2).1 = (getOrCreate id r).1
    ∧ (getOrCreate id (getOrCreate id r).2).2 = (getOrCreate id r).2
    ∧ (getOrCreate id r).2.openedViews = r.openedViews + 1 := by
  simp [getOrCreate, h, lookupSession]

/-- Witness for C9: two back-to-back `getOrCreate "Y"` calls on the
empty registry. -/
theorem getOrCreate_concurrent_same_session_witness :
    lookupSession emptyRegistry.sessions "Y" = none
    ∧ ((getOrCreate "Y" (getOrCreate "Y" emptyRegistry).2).1
        = (getOrCreate "Y" emptyRegistry).1
      ∧ (getOrCreate "Y" (getOrCreate "Y" emptyRegistry).2).2
        = (getOrCreate "Y" emptyRegistry).2
      ∧ (getOrCreate "Y" emptyRegistry).2.openedViews
        = emptyRegistry.openedViews + 1) :=
  ⟨by decide, getOrCreate_concurrent_same_session emptyRegistry "Y" (by decide)⟩

/-- C10: on the modified-content provider, `stat` never fails — for a
key never written it returns a `File` stat of size 0 with the current
timestamps — while `readFile` for the same key throws `FileNotFound`:
the not-found behaviour of `stat` and `readFile` is asymmetric. -/
theorem modified_stat_readFile_asymmetry
    (content : List (String × List Nat)) (u : VirtualUri) (now : Nat)
    (h : lookupBytes content u.query = none) :
    DiffModifiedNotebookProvider.stat content u now
      = ⟨FileType.File, now, now, 0⟩
    ∧ DiffModifiedNotebookProvider.readFile content u
      = .error .FileNotFound := by
  constructor
  · simp [DiffModifiedNotebookProvider.stat, h]
  · simp [DiffModifiedNotebookProvider.readFile, h]

/-- Witness for C10: an empty store and the key `"sid:0"`. -/
theorem modified_stat_readFile_asymmetry_witness :
    lookupBytes [] "sid:0" = none
    ∧ (DiffModifiedNotebookProvider.stat [] ⟨"/m.ipynb", "sid:0", ""⟩ 0
        = ⟨FileType.File, 0, 0, 0⟩
      ∧ DiffModifiedNotebookProvider.readFile [] ⟨"/m.ipynb", "sid:0", ""⟩
        = .error .FileNotFound) :=
  ⟨by decide,
    modified_stat_readFile_asymmetry [] ⟨"/m.ipynb", "sid:0", ""⟩ 0 (by decide)⟩

end Pochi
